import Mathlib

/-!
Shallow embedding of the egui example `examples/custom_3d_three-d/src/main.rs`:
an eframe application that paints a rotating triangle with the three-d
rendering library inside an egui canvas, via a paint callback.

Numeric values carried by the program (angles, coordinates, colors) are
modelled exactly over the rationals; the external library boundary
(glow / three-d contexts, render targets, GPU draw calls) is modelled by
explicit data recording the calls the example issues, with a pixel-level
semantics for the scissored clear and draw operations.  A `Except String`
result models a Rust panic (the example's single `unwrap`): an `error`
value is an aborted process, with no recovery path.
-/

namespace Custom3D

/-- Two-dimensional vector of the host GUI (egui `Vec2`), exact rationals for
the `f32` components. -/
structure Vec2 where
  x : ℚ
  y : ℚ
deriving DecidableEq

/-- Three-dimensional vector (three-d `Vec3`). -/
structure Vec3 where
  x : ℚ
  y : ℚ
  z : ℚ
deriving DecidableEq

/-- Constructor mirroring three-d's `vec3(x, y, z)`. -/
def vec3 (x y z : ℚ) : Vec3 :=
  { x := x, y := y, z := z }

/-- RGBA color with 8-bit channels (three-d `Color`). -/
structure Color where
  r : ℕ
  g : ℕ
  b : ℕ
  a : ℕ
deriving DecidableEq

/-- Constructor mirroring three-d's `Color::new(r, g, b, a)`. -/
def Color.new (r g b a : ℕ) : Color :=
  { r := r, g := g, b := b, a := a }

/-! ### The application shell (`MyApp`) -/

/-- The application state: one rotation angle (`struct MyApp { angle: f32 }`). -/
structure MyApp where
  angle : ℚ
deriving DecidableEq

/-- `MyApp::new` ignores the creation context and sets `angle` to `0.2`. -/
def MyApp.new : MyApp :=
  { angle := 1 / 5 }

/-- The angle mutation performed by one run of `MyApp::update`:
`self.angle += response.drag_delta().x * 0.01`.  The drag delta of the frame
is the input; the rest of `update` only lays out widgets and captures a
snapshot of the new angle into the paint callback. -/
def MyApp.update (app : MyApp) (dragDelta : Vec2) : MyApp :=
  { angle := app.angle + dragDelta.x * (1 / 100) }

/-- The application state after processing a sequence of frames whose drag
deltas are `deltas`, in order. -/
def MyApp.runFrames (app : MyApp) (deltas : List Vec2) : MyApp :=
  deltas.foldl MyApp.update app

/-- Sum of the per-frame angle increments `delta.x * 0.01` over a sequence of
processed frames. -/
def dragSum (deltas : List Vec2) : ℚ :=
  (deltas.map (fun d => d.x * (1 / 100))).sum

/-! ### The GPU-context boundary -/

/-- A raw glow GPU context handle, as handed to the paint callback by eframe.
The `valid` flag abstracts whether three-d context creation succeeds on this
handle (the failure condition lives inside the external library). -/
structure GlContext where
  id : ℕ
  valid : Bool
deriving DecidableEq

/-- The three-d `Context` wrapper around a raw glow context. -/
structure Context where
  gl : GlContext
deriving DecidableEq

/-- Boundary operation `three_d::Context::from_gl_context`: the one fallible
call the example makes.  It wraps the raw handle, or reports an error. -/
def Context.from_gl_context (gl : GlContext) : Except String Context :=
  if gl.valid then Except.ok { gl := gl } else Except.error "context creation failed"

/-- The renderer adapter (`struct ThreeDApp`): it owns a three-d context. -/
structure ThreeDApp where
  context : Context
deriving DecidableEq

/-- `ThreeDApp::new`: `Context::from_gl_context(gl).unwrap()`.  The `unwrap`
panic is modelled by propagating the `error` (an aborted process). -/
def ThreeDApp.new (gl : GlContext) : Except String ThreeDApp :=
  (Context.from_gl_context gl).map (fun c => { context := c })

/-! ### The per-thread adapter cache (`with_three_d_context`) -/

/-- Identity of a rendering thread. -/
abbrev ThreadId := ℕ

/-- The program's thread-local storage `THREE_D: RefCell<Option<ThreeDApp>>`,
seen globally: one optional cached adapter per thread. -/
abbrev ThreeDCache := ThreadId → Option ThreeDApp

/-- The cache at process start: no thread has constructed an adapter. -/
def initialCache : ThreeDCache :=
  fun _ => none

/-- `with_three_d_context(gl, f)` as executed on thread `t`: borrow the
thread's slot, `get_or_insert_with(|| ThreeDApp::new(gl.clone()))`, apply `f`.
Returns `f`'s result and the updated cache, or the panic from a failed
construction. -/
def with_three_d_context {α : Type} (cache : ThreeDCache) (t : ThreadId)
    (gl : GlContext) (f : ThreeDApp → α) : Except String (α × ThreeDCache) :=
  match cache t with
  | some app => Except.ok (f app, cache)
  | none =>
      (ThreeDApp.new gl).map
        (fun app => (f app, fun u => if u = t then some app else cache u))

/-- A sequence of paint-callback invocations, each naming the thread it runs
on and the GPU handle the painter supplies, threaded through the cache. -/
def runCallbacks (cache : ThreeDCache) : List (ThreadId × GlContext) → Except String ThreeDCache
  | [] => Except.ok cache
  | (t, gl) :: rest =>
      match with_three_d_context cache t gl (fun app => app) with
      | Except.ok (_, cache2) => runCallbacks cache2 rest
      | Except.error e => Except.error e

/-! ### Rectangles, viewports and render targets -/

/-- A three-d `Viewport` (pixel rectangle receiving the camera's output):
`x`/`y` are `i32`, `width`/`height` are `u32`. -/
structure Viewport where
  x : ℤ
  y : ℤ
  width : ℕ
  height : ℕ
deriving DecidableEq

/-- A three-d `ScissorBox` restricting which pixels a clear or draw call may
touch. -/
structure ScissorBox where
  x : ℤ
  y : ℤ
  width : ℕ
  height : ℕ
deriving DecidableEq

/-- Whether the pixel at integer coordinates `(px, py)` lies inside the
scissor box. -/
def ScissorBox.containsB (sb : ScissorBox) (px py : ℤ) : Bool :=
  decide (sb.x ≤ px) && decide (px < sb.x + sb.width) &&
    decide (sb.y ≤ py) && decide (py < sb.y + sb.height)

/-- A three-d `RenderTarget`: either built from a framebuffer the host hands
over (`RenderTarget::from_framebuffer`) or the default screen buffer
(`RenderTarget::screen`).  Framebuffer names are naturals. -/
inductive RenderTarget where
  | fromFramebuffer (ctx : Context) (width height : ℕ) (fbo : ℕ)
  | screen (ctx : Context) (width height : ℕ)
deriving DecidableEq

/-- `RenderTarget::into_framebuffer`: consume the target and hand its
framebuffer (if any) back to the caller; the default screen target owns no
framebuffer object. -/
def RenderTarget.into_framebuffer : RenderTarget → Option ℕ
  | RenderTarget.fromFramebuffer _ _ _ fbo => some fbo
  | RenderTarget.screen _ _ _ => none

/-! ### Camera, mesh, material and transform -/

/-- An angle in degrees (three-d `Degrees`). -/
structure Degrees where
  deg : ℚ
deriving DecidableEq

/-- Constructor mirroring three-d's `degrees(v)`. -/
def degrees (v : ℚ) : Degrees :=
  { deg := v }

/-- An angle in radians (three-d `Radians`). -/
structure Radians where
  val : ℚ
deriving DecidableEq

/-- Constructor mirroring three-d's `radians(v)`. -/
def radians (v : ℚ) : Radians :=
  { val := v }

/-- The projection kind a three-d `Camera` was built with. -/
inductive ProjectionKind where
  | perspective
  | orthographic
deriving DecidableEq

/-- The camera data `Camera::new_perspective` records: viewport, eye
position, look-at target, up direction, vertical field of view, near and far
plane distances. -/
structure Camera where
  viewport : Viewport
  projection : ProjectionKind
  position : Vec3
  target : Vec3
  up : Vec3
  fov : Degrees
  zNear : ℚ
  zFar : ℚ
deriving DecidableEq

/-- `Camera::new_perspective(viewport, position, target, up, fov, z_near, z_far)`. -/
def Camera.new_perspective (viewport : Viewport) (position target up : Vec3)
    (fov : Degrees) (zNear zFar : ℚ) : Camera :=
  { viewport := viewport, projection := ProjectionKind.perspective,
    position := position, target := target, up := up, fov := fov,
    zNear := zNear, zFar := zFar }

/-- The position data of a three-d `CpuMesh` (`Positions::F32`). -/
inductive Positions where
  | F32 (points : List Vec3)
deriving DecidableEq

/-- Number of vertex positions held. -/
def Positions.length : Positions → ℕ
  | Positions.F32 points => points.length

/-- The CPU-side mesh the example builds: positions and optional per-vertex
colors.  The remaining `CpuMesh` fields (normals, uvs, indices, ...) are left
at `Default::default()` by the example and are omitted. -/
structure CpuMesh where
  positions : Positions
  colors : Option (List Color)
deriving DecidableEq

/-- A GPU mesh (`Mesh::new(&context, &cpu_mesh)`): the context it was created
on and the CPU mesh it was uploaded from. -/
structure Mesh where
  onContext : Context
  cpuSource : CpuMesh
deriving DecidableEq

/-- `Mesh::new`. -/
def Mesh.new (ctx : Context) (cpu : CpuMesh) : Mesh :=
  { onContext := ctx, cpuSource := cpu }

/-- `ColorMaterial::default()`: the per-vertex-color material with all fields
defaulted; it carries no data the example ever reads. -/
inductive ColorMaterial where
  | default
deriving DecidableEq

/-- The 4x4 transform values the example constructs, represented by the
constructing calls: the identity (what `Gm::new` starts from) and
`Mat4::from_angle_y(angle)`.  `Mat4.eval` below gives the numeric matrix. -/
inductive Mat4 where
  | identity
  | from_angle_y (a : Radians)
deriving DecidableEq

/-- A renderable object (`Gm`): geometry, material and current transform. -/
structure Gm where
  geometry : Mesh
  material : ColorMaterial
  transformation : Mat4
deriving DecidableEq

/-- `Gm::new(geometry, material)` starts with the identity transform. -/
def Gm.new (geometry : Mesh) (material : ColorMaterial) : Gm :=
  { geometry := geometry, material := material, transformation := Mat4.identity }

/-- `set_transformation` replaces the object's transform. -/
def Gm.set_transformation (g : Gm) (m : Mat4) : Gm :=
  { g with transformation := m }

/-! ### Clear states and the scissored draw-call semantics -/

/-- A three-d `ClearState`: each channel is cleared to the given value when
`some`, left untouched when `none`. -/
structure ClearState where
  red : Option ℚ
  green : Option ℚ
  blue : Option ℚ
  alpha : Option ℚ
  depth : Option ℚ
deriving DecidableEq

/-- `ClearState::depth(d)`: clear no color channel, clear depth to `d`. -/
def ClearState.depthOnly (d : ℚ) : ClearState :=
  { red := none, green := none, blue := none, alpha := none, depth := some d }

/-- The GPU calls the example's render step issues against the render target,
in order: `clear_partially(scissor_box, state)` and
`render_partially(scissor_box, camera, objects, lights=[])`. -/
inductive DrawOp where
  | clearPartially (sb : ScissorBox) (state : ClearState)
  | renderPartially (sb : ScissorBox) (camera : Camera) (objects : List Gm)
deriving DecidableEq

/-- One pixel of a draw target: color channels and depth. -/
structure Pixel where
  red : ℚ
  green : ℚ
  blue : ℚ
  alpha : ℚ
  depth : ℚ
deriving DecidableEq

/-- The pixels of a draw target, addressed by integer coordinates. -/
abbrev Framebuffer := ℤ → ℤ → Pixel

/-- Effect of a `ClearState` on a single pixel: each `some` channel is
overwritten, each `none` channel kept. -/
def applyClear (cs : ClearState) (p : Pixel) : Pixel :=
  { red := cs.red.getD p.red, green := cs.green.getD p.green,
    blue := cs.blue.getD p.blue, alpha := cs.alpha.getD p.alpha,
    depth := cs.depth.getD p.depth }

/-- An abstract rasterizer: what `render_partially` computes for one pixel
inside the scissor box, given the camera, the objects and the pixel's
previous value.  The example's claims hold for every rasterizer, so it is a
parameter of the semantics. -/
abbrev Rasterizer := Camera → List Gm → ℤ → ℤ → Pixel → Pixel

/-- Pixel-level effect of one draw call: both calls touch only pixels inside
their scissor box; a clear applies its `ClearState`, a draw applies the
rasterizer. -/
def DrawOp.apply (raster : Rasterizer) (fb : Framebuffer) : DrawOp → Framebuffer
  | DrawOp.clearPartially sb cs => fun x y =>
      if sb.containsB x y then applyClear cs (fb x y) else fb x y
  | DrawOp.renderPartially sb camera objects => fun x y =>
      if sb.containsB x y then raster camera objects x y (fb x y) else fb x y

/-- Effect of a sequence of draw calls, first to last. -/
def applyOps (raster : Rasterizer) (ops : List DrawOp) (fb : Framebuffer) : Framebuffer :=
  ops.foldl (fun acc op => DrawOp.apply raster acc op) fb

/-! ### The numeric meaning of the transforms -/

/-- A 4x4 real matrix built column by column, as cgmath's `Matrix4::new`
lists its sixteen arguments (column-major). -/
def newColumns (c0 c1 c2 c3 : Fin 4 → ℝ) : Matrix (Fin 4) (Fin 4) ℝ :=
  Matrix.of fun i j => ![c0, c1, c2, c3] j i

/-- The matrix cgmath's `Matrix4::from_angle_y(θ)` builds: with
`(s, c) = θ.sin_cos()`, the columns `(c,0,-s,0)`, `(0,1,0,0)`, `(s,0,c,0)`,
`(0,0,0,1)`. -/
noncomputable def fromAngleYMatrix (θ : ℝ) : Matrix (Fin 4) (Fin 4) ℝ :=
  newColumns ![Real.cos θ, 0, -Real.sin θ, 0] ![0, 1, 0, 0]
    ![Real.sin θ, 0, Real.cos θ, 0] ![0, 0, 0, 1]

/-- Numeric value of a `Mat4`. -/
noncomputable def Mat4.eval : Mat4 → Matrix (Fin 4) (Fin 4) ℝ
  | Mat4.identity => 1
  | Mat4.from_angle_y a => fromAngleYMatrix ((a.val : ℝ))

/-- The specification's rotation about the Y axis by `θ` radians, written
row by row as in a textbook (homogeneous coordinates, column vectors):
rows `(cos θ, 0, sin θ, 0)`, `(0,1,0,0)`, `(-sin θ, 0, cos θ, 0)`,
`(0,0,0,1)`. -/
noncomputable def rotationAboutY (θ : ℝ) : Matrix (Fin 4) (Fin 4) ℝ :=
  !![Real.cos θ, 0, Real.sin θ, 0;
     0, 1, 0, 0;
     -Real.sin θ, 0, Real.cos θ, 0;
     0, 0, 0, 1]

/-! ### The render step (`ThreeDApp::render`) -/

/-- Everything `ThreeDApp::render` builds for one frame: the camera, the
CPU-side triangle mesh, the model (mesh + material + transform) and the two
draw calls issued against the render target. -/
structure RenderOutput where
  camera : Camera
  cpu_mesh : CpuMesh
  model : Gm
  ops : List DrawOp
deriving DecidableEq

/-- `ThreeDApp::render(screen, viewport, scissor_box, angle)`: build the
perspective camera, the single colored triangle, the model with the fresh
Y-rotation transform, then clear the scissor box's depth and draw the model
scissored to the same box. -/
def ThreeDApp.render (app : ThreeDApp) (_screen : RenderTarget)
    (viewport : Viewport) (scissor_box : ScissorBox) (angle : ℚ) : RenderOutput :=
  let camera := Camera.new_perspective viewport (vec3 0 0 2) (vec3 0 0 0)
    (vec3 0 1 0) (degrees 45) (1 / 10) 10
  let positions := [vec3 (1 / 2) (-(1 / 2)) 0, vec3 (-(1 / 2)) (-(1 / 2)) 0,
    vec3 0 (1 / 2) 0]
  let colors := [Color.new 255 0 0 255, Color.new 0 255 0 255, Color.new 0 0 255 255]
  let cpu_mesh : CpuMesh := { positions := Positions.F32 positions, colors := some colors }
  let model := (Gm.new (Mesh.new app.context cpu_mesh) ColorMaterial.default).set_transformation
    (Mat4.from_angle_y (radians angle))
  { camera := camera, cpu_mesh := cpu_mesh, model := model,
    ops := [DrawOp.clearPartially scissor_box (ClearState.depthOnly 1),
            DrawOp.renderPartially scissor_box camera [model]] }

/-! ### The paint callback (`ThreeDApp::custom_painting`) -/

/-- Rust's `f32 as u32` conversion on an exact value: truncate toward zero,
saturating at the ends of the `u32` range. -/
def f32AsU32 (q : ℚ) : ℕ :=
  min (Int.toNat ⌊q⌋) (2 ^ 32 - 1)

/-- Rust's `f32::round`: round half away from zero. -/
def rustRound (q : ℚ) : ℤ :=
  if 0 ≤ q then ⌊q + 1 / 2⌋ else -⌊-q + 1 / 2⌋

/-- Rust's saturating `as i32` on an integer value. -/
def intAsI32 (n : ℤ) : ℤ :=
  max (-(2 ^ 31)) (min n (2 ^ 31 - 1))

/-- Rust's saturating `as u32` on an integer value. -/
def intAsU32 (n : ℤ) : ℕ :=
  min n.toNat (2 ^ 32 - 1)

/-- A rectangle in GUI points (`info.viewport`); only its extent is read. -/
structure PointsRect where
  width : ℚ
  height : ℚ
deriving DecidableEq

/-- A rectangle in physical pixels as egui reports it: left edge, distance of
the bottom edge from the bottom of the screen, width and height. -/
structure PixelsRect where
  left_px : ℚ
  from_bottom_px : ℚ
  width_px : ℚ
  height_px : ℚ
deriving DecidableEq

/-- The per-frame geometry egui hands the paint callback
(`egui::PaintCallbackInfo`): the allocated viewport in points and in pixels,
and the current clip rectangle in pixels. -/
structure PaintCallbackInfo where
  viewport : PointsRect
  viewport_in_pixels : PixelsRect
  clip_rect_in_pixels : PixelsRect
deriving DecidableEq

/-- The egui_glow painter as the callback sees it: the raw GPU handle and the
optional intermediate offscreen framebuffer the host renders through. -/
structure Painter where
  gl : GlContext
  intermediate_fbo : Option ℕ
deriving DecidableEq

/-- Everything one invocation of `ThreeDApp::custom_painting` does: the
sRGB-conversion disable, the resolved draw target, the viewport and scissor
box passed on to `render`, the render step's output, and the framebuffer
handed back to the host by `into_framebuffer`. -/
structure PaintingOutput where
  srgbDisabled : Bool
  target : RenderTarget
  viewport : Viewport
  scissor_box : ScissorBox
  frame : RenderOutput
  returnedFbo : Option ℕ
deriving DecidableEq

/-- `ThreeDApp::custom_painting(info, painter, angle)`: disable
`FRAMEBUFFER_SRGB`; build the draw target from the painter's intermediate
framebuffer when there is one, else use the screen; round the pixel
rectangles into the three-d viewport and scissor box; render; give the
framebuffer back to the host. -/
def ThreeDApp.custom_painting (app : ThreeDApp) (info : PaintCallbackInfo)
    (painter : Painter) (angle : ℚ) : PaintingOutput :=
  let screen :=
    (painter.intermediate_fbo.map (fun fbo =>
      RenderTarget.fromFramebuffer app.context (f32AsU32 info.viewport.width)
        (f32AsU32 info.viewport.height) fbo)).getD
      (RenderTarget.screen app.context (f32AsU32 info.viewport.width)
        (f32AsU32 info.viewport.height))
  let vpx := info.viewport_in_pixels
  let viewport : Viewport :=
    { x := intAsI32 (rustRound vpx.left_px), y := intAsI32 (rustRound vpx.from_bottom_px),
      width := intAsU32 (rustRound vpx.width_px), height := intAsU32 (rustRound vpx.height_px) }
  let cpx := info.clip_rect_in_pixels
  let scissor_box : ScissorBox :=
    { x := intAsI32 (rustRound cpx.left_px), y := intAsI32 (rustRound cpx.from_bottom_px),
      width := intAsU32 (rustRound cpx.width_px), height := intAsU32 (rustRound cpx.height_px) }
  let frame := app.render screen viewport scissor_box angle
  { srgbDisabled := true, target := screen, viewport := viewport,
    scissor_box := scissor_box, frame := frame,
    returnedFbo := screen.into_framebuffer }

/-- The whole paint-callback closure the shell enqueues, as run on thread
`t`: `with_three_d_context(painter.gl(), |three_d|
three_d.custom_painting(info, painter, angle))`. -/
def paintCallback (cache : ThreeDCache) (t : ThreadId) (info : PaintCallbackInfo)
    (painter : Painter) (angle : ℚ) : Except String (PaintingOutput × ThreeDCache) :=
  with_three_d_context cache t painter.gl
    (fun app => app.custom_painting info painter angle)

/-- Whether a fallible step succeeded (an `error` is an aborted process). -/
def isOkB {α : Type} : Except String α → Bool
  | Except.ok _ => true
  | Except.error _ => false

/-! ### Concrete instances used to exercise the theorems -/

/-- A drag-delta sequence of two frames, each dragging 100 pixels right. -/
def twoDrags : List Vec2 :=
  [{ x := 100, y := 0 }, { x := 100, y := 0 }]

/-- A raw GPU handle on which context creation succeeds. -/
def glOK : GlContext :=
  { id := 0, valid := true }

/-- A second, different raw GPU handle, also workable. -/
def glOther : GlContext :=
  { id := 1, valid := true }

/-- The adapter built from `glOK`. -/
def appOK : ThreeDApp :=
  { context := { gl := glOK } }

/-- The cache after the first invocation on thread 0 with `glOK`. -/
def cacheAfterFirst : ThreeDCache :=
  fun u => if u = 0 then some appOK else initialCache u

/-! ## Theorems -/

/-- Helper: folding the per-frame angle update over a drag-delta sequence
adds exactly the sum of the increments to the starting angle. -/
theorem runFrames_angle (deltas : List Vec2) :
    ∀ a : ℚ, (MyApp.runFrames { angle := a } deltas).angle = a + dragSum deltas := by
  induction deltas with
  | nil => intro a; simp [MyApp.runFrames, dragSum]
  | cons d ds ih =>
      intro a
      have h := ih (a + d.x * (1 / 100))
      simp only [MyApp.runFrames, List.foldl_cons] at h ⊢
      simp only [MyApp.update] at h ⊢
      rw [h]
      simp only [dragSum, List.map_cons, List.sum_cons]
      ring

/-- C1 fails as stated: after two frames each dragging 100 pixels, the
accumulated angle is 11/5 = 2.2, not the drag sum 2.0 — the constructor's
initial angle 0.2 is part of the accumulated value. -/
theorem C1_counterexample :
    (MyApp.new.runFrames twoDrags).angle = 11 / 5 ∧
    (MyApp.new.runFrames twoDrags).angle ≠ dragSum twoDrags ∧
    (MyApp.new.runFrames twoDrags).angle ≠ 2 := by
  have h : (MyApp.new.runFrames twoDrags).angle = 11 / 5 := by
    rw [show MyApp.new = { angle := 1 / 5 } from rfl, runFrames_angle]
    norm_num [dragSum, twoDrags]
  refine ⟨h, ?_, ?_⟩
  · rw [h]
    norm_num [dragSum, twoDrags]
  · rw [h]
    norm_num

/-- C1 (amended): the accumulated angle after a sequence of processed frames
equals the initial angle 0.2 plus the sum of (drag delta.x * 0.01) over the
frames, with no clamping or wrapping; each frame increments the angle by
exactly delta.x * 0.01, so a single 100-pixel drag increments it by 1.0, and
two such drags leave the total at 0.2 + 2.0 = 2.2. -/
theorem C1_angle_accumulation (deltas : List Vec2) (app : MyApp) (d : Vec2) :
    (MyApp.new.runFrames deltas).angle = 1 / 5 + dragSum deltas ∧
    (app.update d).angle = app.angle + d.x * (1 / 100) ∧
    (app.update { x := 100, y := 0 }).angle = app.angle + 1 ∧
    (MyApp.new.runFrames twoDrags).angle = 1 / 5 + 2 := by
  refine ⟨runFrames_angle deltas (1 / 5), rfl, ?_, ?_⟩
  · simp [MyApp.update]
  · rw [show MyApp.new = { angle := 1 / 5 } from rfl, runFrames_angle]
    norm_num [dragSum, twoDrags]

/-- C9: the rotation angle is initialised to 0.2 (not zero) by `MyApp::new`,
so the angle the shell hands the renderer after any sequence of frames is
0.2 plus the sum of (drag delta.x * 0.01) over those frames. -/
theorem C9_initial_angle_bias (deltas : List Vec2) :
    MyApp.new.angle = 1 / 5 ∧
    (MyApp.new.runFrames deltas).angle = 1 / 5 + dragSum deltas :=
  ⟨rfl, runFrames_angle deltas (1 / 5)⟩

/-- Helper: one invocation of `with_three_d_context`, on any thread and with
any handle, never overwrites a thread slot that already holds an adapter. -/
theorem with_three_d_context_preserves {α : Type} (cache : ThreeDCache)
    (t2 : ThreadId) (gl : GlContext) (f : ThreeDApp → α) (r : α)
    (cache2 : ThreeDCache) (t : ThreadId) (app : ThreeDApp)
    (h : cache t = some app)
    (hw : with_three_d_context cache t2 gl f = Except.ok (r, cache2)) :
    cache2 t = some app := by
  unfold with_three_d_context at hw
  cases hc : cache t2 with
  | some a =>
      rw [hc] at hw
      injection hw with hw2
      injection hw2 with hr hcache
      rw [← hcache]
      exact h
  | none =>
      rw [hc] at hw
      cases hn : ThreeDApp.new gl with
      | error e => rw [hn] at hw; simp [Except.map] at hw
      | ok a =>
          rw [hn] at hw
          simp only [Except.map, Except.ok.injEq, Prod.mk.injEq] at hw
          rw [← hw.2]
          by_cases ht : t = t2

          · rw [ht, hc] at h
            exact absurd h (by simp)
          · simp [ht, h]

/-- Helper: a whole sequence of invocations never overwrites a thread slot
that already holds an adapter. -/
theorem runCallbacks_preserves (evs : List (ThreadId × GlContext)) :
    ∀ (cache cache2 : ThreeDCache) (t : ThreadId) (app : ThreeDApp),
      cache t = some app → runCallbacks cache evs = Except.ok cache2 →
        cache2 t = some app := by
  induction evs with
  | nil =>
      intro cache cache2 t app h hrun
      simp only [runCallbacks, Except.ok.injEq] at hrun
      rw [← hrun]
      exact h
  | cons e rest ih =>
      intro cache cache2 t app h hrun
      obtain ⟨t2, gl2⟩ := e
      unfold runCallbacks at hrun
      cases hw : with_three_d_context cache t2 gl2 (fun a => a) with
      | error e2 => rw [hw] at hrun; simp at hrun
      | ok pr =>
          rw [hw] at hrun
          exact ih pr.2 cache2 t app
            (with_three_d_context_preserves cache t2 gl2 (fun a => a) pr.1 pr.2 t app h hw)
            hrun

/-- C2: on every rendering thread the adapter is constructed at most once
for the process lifetime.  The first invocation of `with_three_d_context` on
a thread constructs the adapter and caches it in that thread's slot only,
leaving every other thread's slot untouched; an invocation that finds a
cached adapter returns exactly that instance and changes nothing; and across
any further sequence of invocations, on any threads and with any handles, a
thread's cached instance stays identically the same. -/
theorem C2_adapter_constructed_once {α : Type} (cache : ThreeDCache)
    (t u : ThreadId) (gl : GlContext) (f : ThreeDApp → α)
    (evs : List (ThreadId × GlContext)) :
    (∀ app, cache t = none → ThreeDApp.new gl = Except.ok app →
      with_three_d_context cache t gl f =
        Except.ok (f app, fun v => if v = t then some app else cache v)) ∧
    (∀ app, cache t = some app →
      with_three_d_context cache t gl f = Except.ok (f app, cache)) ∧
    (∀ app cache2, cache t = some app → runCallbacks cache evs = Except.ok cache2 →
      cache2 t = some app) ∧
    (∀ r cache2, u ≠ t → with_three_d_context cache t gl f = Except.ok (r, cache2) →
      cache2 u = cache u) := by
  refine ⟨?_, ?_, ?_, ?_⟩
  · intro app h hnew
    unfold with_three_d_context
    rw [h, hnew]
    rfl
  · intro app h
    unfold with_three_d_context
    rw [h]
  · intro app cache2 h hrun
    exact runCallbacks_preserves evs cache cache2 t app h hrun
  · intro r cache2 hu hw
    unfold with_three_d_context at hw
    cases hc : cache t with
    | some a =>
        rw [hc] at hw
        injection hw with hw2
        injection hw2 with hr hcache
        rw [← hcache]
    | none =>
        rw [hc] at hw
        cases hn : ThreeDApp.new gl with
        | error e => rw [hn] at hw; simp [Except.map] at hw
        | ok a =>
            rw [hn] at hw
            simp only [Except.map, Except.ok.injEq, Prod.mk.injEq] at hw
            rw [← hw.2]
            simp [hu]

/-- C10: after the first invocation on a thread, the handle argument of
`with_three_d_context` is ignored.  A first, constructing invocation with
handle `gl` caches an adapter whose context wraps `gl` itself; any later
invocation on the same thread, with any handle `gl2` whatsoever, returns
that identical cached adapter and leaves the cache unchanged. -/
theorem C10_later_gl_ignored {α β : Type} (cache : ThreeDCache) (t : ThreadId)
    (gl : GlContext) (f : ThreeDApp → α) (r : α) (cache2 : ThreeDCache)
    (hfirst : cache t = none)
    (hok : with_three_d_context cache t gl f = Except.ok (r, cache2)) :
    ∃ app, cache2 t = some app ∧ app.context.gl = gl ∧
      ∀ (gl2 : GlContext) (g : ThreeDApp → β),
        with_three_d_context cache2 t gl2 g = Except.ok (g app, cache2) := by
  unfold with_three_d_context at hok
  rw [hfirst] at hok
  cases hn : ThreeDApp.new gl with
  | error e => rw [hn] at hok; simp [Except.map] at hok
  | ok app =>
      rw [hn] at hok
      simp only [Except.map, Except.ok.injEq, Prod.mk.injEq] at hok
      have happ : app.context.gl = gl := by
        unfold ThreeDApp.new Context.from_gl_context at hn
        by_cases hv : gl.valid
        · simp only [hv, if_true, Except.map, Except.ok.injEq] at hn
          rw [← hn]
        · simp [hv, Except.map] at hn
      have hcache2 : cache2 t = some app := by
        rw [← hok.2]
        simp
      refine ⟨app, hcache2, happ, ?_⟩
      intro gl2 g
      unfold with_three_d_context
      rw [hcache2]

/-- Witness for C10 at a concrete first invocation: thread 0 constructs from
`glOK`; the cached adapter wraps `glOK`, and any later invocation (with any
handle, in particular `glOther`) returns it unchanged. -/
theorem C10_witness :
    ∃ app, cacheAfterFirst 0 = some app ∧ app.context.gl = glOK ∧
      ∀ (gl2 : GlContext) (g : ThreeDApp → ThreeDApp),
        with_three_d_context cacheAfterFirst 0 gl2 g = Except.ok (g app, cacheAfterFirst) :=
  C10_later_gl_ignored initialCache 0 glOK (fun a => a) appOK cacheAfterFirst rfl rfl

/-- C3: the render step's frame effect, for every rasterizer and starting
framebuffer.  Every clear call it issues is scissored to the clip box and
clears only the depth channel to 1.0; pixels outside the scissor box are
left completely unchanged by the whole frame (clear and draw alike); and the
clear call that is issued preserves every pixel's four color channels while
setting the depth inside the box. -/
theorem C3_scissored_depth_only_clear (app : ThreeDApp) (screen : RenderTarget)
    (vp : Viewport) (sb : ScissorBox) (angle : ℚ) (raster : Rasterizer)
    (fb : Framebuffer) (x y : ℤ) :
    (∀ sb2 cs, DrawOp.clearPartially sb2 cs ∈ (app.render screen vp sb angle).ops →
      sb2 = sb ∧ cs = ClearState.depthOnly 1) ∧
    (sb.containsB x y = false →
      applyOps raster ((app.render screen vp sb angle).ops) fb x y = fb x y) ∧
    (((DrawOp.clearPartially sb (ClearState.depthOnly 1)).apply raster fb x y).red
        = (fb x y).red ∧
      ((DrawOp.clearPartially sb (ClearState.depthOnly 1)).apply raster fb x y).green
        = (fb x y).green ∧
      ((DrawOp.clearPartially sb (ClearState.depthOnly 1)).apply raster fb x y).blue
        = (fb x y).blue ∧
      ((DrawOp.clearPartially sb (ClearState.depthOnly 1)).apply raster fb x y).alpha
        = (fb x y).alpha) ∧
    (sb.containsB x y = true →
      ((DrawOp.clearPartially sb (ClearState.depthOnly 1)).apply raster fb x y).depth = 1) := by
  refine ⟨?_, ?_, ?_, ?_⟩
  · intro sb2 cs hmem
    simp only [ThreeDApp.render, List.mem_cons, List.mem_singleton] at hmem
    rcases hmem with h | h | h
    · exact ⟨(DrawOp.clearPartially.injEq _ _ _ _).mp h.symm |>.1.symm,
        (DrawOp.clearPartially.injEq _ _ _ _).mp h.symm |>.2.symm⟩
    · exact absurd h (by simp)
    · exact absurd h (by simp)
  · intro hout
    simp only [ThreeDApp.render, applyOps, List.foldl_cons, List.foldl_nil]
    simp [DrawOp.apply, hout]
  · by_cases hin : sb.containsB x y
    · simp [DrawOp.apply, hin, applyClear, ClearState.depthOnly]
    · simp [DrawOp.apply, hin]
  · intro hin
    simp [DrawOp.apply, hin, applyClear, ClearState.depthOnly]

/-- Helper: the matrix cgmath builds column-major in `Matrix4::from_angle_y`
is exactly the textbook rotation about the Y axis. -/
theorem fromAngleYMatrix_eq_rotationAboutY (θ : ℝ) :
    fromAngleYMatrix θ = rotationAboutY θ := by
  ext i j
  fin_cases i <;> fin_cases j <;> rfl

/-- C4: the transform the render step applies to the triangle model is
`Mat4::from_angle_y(radians(angle))` with the angle handed in for that
frame, its numeric value is exactly the rotation about the Y axis by that
angle in radians, and it is recomputed fresh from the angle alone each
frame: it does not depend on the adapter, the render target, the viewport or
the scissor box, so no transform state accumulates across frames. -/
theorem C4_fresh_y_rotation (app app2 : ThreeDApp) (screen screen2 : RenderTarget)
    (vp vp2 : Viewport) (sb sb2 : ScissorBox) (angle : ℚ) :
    (app.render screen vp sb angle).model.transformation
        = Mat4.from_angle_y (radians angle) ∧
    Mat4.eval ((app.render screen vp sb angle).model.transformation)
        = rotationAboutY ((angle : ℝ)) ∧
    (app.render screen vp sb angle).model.transformation
        = (app2.render screen2 vp2 sb2 angle).model.transformation :=
  ⟨rfl, fromAngleYMatrix_eq_rotationAboutY ((angle : ℝ)), rfl⟩

/-- C5: the triangle mesh the render step builds is the same on every frame:
exactly three vertices at (0.5, -0.5, 0), (-0.5, -0.5, 0) and (0, 0.5, 0),
colored red, green and blue with alpha 255, independent of the adapter, the
render target, the viewport, the scissor box and the angle; and the model's
GPU mesh is uploaded from exactly this CPU mesh. -/
theorem C5_constant_triangle (app app2 : ThreeDApp) (screen screen2 : RenderTarget)
    (vp vp2 : Viewport) (sb sb2 : ScissorBox) (angle angle2 : ℚ) :
    (app.render screen vp sb angle).cpu_mesh.positions
        = Positions.F32 [vec3 (1 / 2) (-(1 / 2)) 0, vec3 (-(1 / 2)) (-(1 / 2)) 0,
            vec3 0 (1 / 2) 0] ∧
    (app.render screen vp sb angle).cpu_mesh.colors
        = some [Color.new 255 0 0 255, Color.new 0 255 0 255, Color.new 0 0 255 255] ∧
    (app.render screen vp sb angle).cpu_mesh.positions.length = 3 ∧
    (∀ c ∈ [Color.new 255 0 0 255, Color.new 0 255 0 255, Color.new 0 0 255 255],
      c.a = 255) ∧
    (app.render screen vp sb angle).cpu_mesh
        = (app2.render screen2 vp2 sb2 angle2).cpu_mesh ∧
    (app.render screen vp sb angle).model.geometry.cpuSource
        = (app.render screen vp sb angle).cpu_mesh :=
  ⟨rfl, rfl, rfl, by decide, rfl, rfl⟩

/-- C6: the whole paint-callback pipeline aborts exactly when it has to
construct the adapter (no cached instance on the thread) and the one
fallible operation — wrapping the raw GPU handle in the rendering library's
context — fails; `ThreeDApp::new`'s `unwrap` turns exactly that failure into
the abort, and nothing else in the pipeline produces an error. -/
theorem C6_single_fallible_operation (cache : ThreeDCache) (t : ThreadId)
    (info : PaintCallbackInfo) (painter : Painter) (angle : ℚ) (gl : GlContext) :
    (isOkB (paintCallback cache t info painter angle) = false ↔
      cache t = none ∧ isOkB (Context.from_gl_context painter.gl) = false) ∧
    isOkB (ThreeDApp.new gl) = isOkB (Context.from_gl_context gl) := by
  constructor
  · unfold paintCallback with_three_d_context
    cases hc : cache t with
    | some a => simp [isOkB]
    | none =>
        unfold ThreeDApp.new
        cases hg : Context.from_gl_context painter.gl with
        | error e => simp [Except.map, isOkB]
        | ok c => simp [Except.map, isOkB]
  · unfold ThreeDApp.new
    cases hg : Context.from_gl_context gl with
    | error e => simp [Except.map, isOkB]
    | ok c => simp [Except.map, isOkB]

/-- C7: the paint callback resolves its draw target from the host's
intermediate offscreen framebuffer when the painter supplies one, sized by
the viewport extent, and falls back to the default screen buffer otherwise;
after rendering, the framebuffer owned by the draw target (the host's
intermediate one when present, none for the screen) is handed back to the
host via `into_framebuffer`. -/
theorem C7_draw_target_resolution (app : ThreeDApp) (info : PaintCallbackInfo)
    (painter : Painter) (angle : ℚ) (fbo : ℕ) :
    (painter.intermediate_fbo = some fbo →
      (app.custom_painting info painter angle).target
        = RenderTarget.fromFramebuffer app.context (f32AsU32 info.viewport.width)
            (f32AsU32 info.viewport.height) fbo) ∧
    (painter.intermediate_fbo = none →
      (app.custom_painting info painter angle).target
        = RenderTarget.screen app.context (f32AsU32 info.viewport.width)
            (f32AsU32 info.viewport.height)) ∧
    (app.custom_painting info painter angle).returnedFbo
        = ((app.custom_painting info painter angle).target).into_framebuffer ∧
    (painter.intermediate_fbo = some fbo →
      (app.custom_painting info painter angle).returnedFbo = some fbo) ∧
    (painter.intermediate_fbo = none →
      (app.custom_painting info painter angle).returnedFbo = none) := by
  refine ⟨?_, ?_, rfl, ?_, ?_⟩
  · intro h
    simp [ThreeDApp.custom_painting, h]
  · intro h
    simp [ThreeDApp.custom_painting, h]
  · intro h
    simp [ThreeDApp.custom_painting, h, RenderTarget.into_framebuffer]
  · intro h
    simp [ThreeDApp.custom_painting, h, RenderTarget.into_framebuffer]

/-- C8: the camera the render step builds every frame is a perspective
camera with eye (0, 0, 2), look-at target the origin, up vector (0, 1, 0), a
45-degree field of view, near plane 0.1 and far plane 10.0, sized to the
viewport handed in; every parameter except the viewport is identical on
every frame, whatever the adapter, render target, scissor box or angle. -/
theorem C8_camera_parameters (app app2 : ThreeDApp) (screen screen2 : RenderTarget)
    (vp : Viewport) (sb sb2 : ScissorBox) (angle angle2 : ℚ) :
    (app.render screen vp sb angle).camera
        = Camera.new_perspective vp (vec3 0 0 2) (vec3 0 0 0) (vec3 0 1 0)
            (degrees 45) (1 / 10) 10 ∧
    (app.render screen vp sb angle).camera.projection = ProjectionKind.perspective ∧
    (app.render screen vp sb angle).camera.viewport = vp ∧
    (app.render screen vp sb angle).camera.fov = degrees 45 ∧
    (app.render screen vp sb angle).camera.zNear = 1 / 10 ∧
    (app.render screen vp sb angle).camera.zFar = 10 ∧
    (app.render screen vp sb angle).camera
        = (app2.render screen2 vp sb2 angle2).camera :=
  ⟨rfl, rfl, rfl, rfl, rfl, rfl, rfl⟩
